import Mathlib

/-!
Verification of the agent-network simulation core against its specification.

The repository ships the tests of the simulation engine, its configuration module and
UI state container.  The engine itself (src/lib/agentSimulation.js) is not
part of the snapshot, so the functions of the engine are modelled here from the
specification; the configuration and state modules are embedded from their
sources.  Vectors are modelled over rational numbers, with real-valued
cosine similarity.
-/

namespace AgentNet

/-- Dot product of two numeric vectors, truncating at the shorter length. -/
def dot : List ℚ → List ℚ → ℚ
  | x :: a, y :: b => x * y + dot a b
  | _, _ => 0

theorem dot_nil_left (b : List ℚ) : dot [] b = 0 := by cases b <;> rfl

theorem dot_nil_right (a : List ℚ) : dot a [] = 0 := by cases a <;> rfl

theorem dot_comm (a b : List ℚ) : dot a b = dot b a := by
  induction a generalizing b with
  | nil => rw [dot_nil_left, dot_nil_right]
  | cons x a ih =>
    cases b with
    | nil => rfl
    | cons y b => simp only [dot, ih, mul_comm]

theorem dot_self_nonneg (a : List ℚ) : 0 ≤ dot a a := by
  induction a with
  | nil => simp [dot]
  | cons x a ih =>
    simp only [dot]
    have := mul_self_nonneg x
    linarith

theorem dot_neg_right (a b : List ℚ) : dot a (b.map (fun x => -x)) = -dot a b := by
  induction a generalizing b with
  | nil => simp [dot_nil_left]
  | cons x a ih =>
    cases b with
    | nil => simp [dot_nil_right]
    | cons y b => simp only [List.map, dot, ih]; ring

theorem dot_neg_neg (a : List ℚ) :
    dot (a.map (fun x => -x)) (a.map (fun x => -x)) = dot a a := by
  induction a with
  | nil => simp [dot]
  | cons x a ih => simp only [List.map, dot, ih]; ring

/-- Cauchy-Schwarz inequality for the list dot product. -/
theorem dot_sq_le_dot_mul_dot (a b : List ℚ) : dot a b ^ 2 ≤ dot a a * dot b b := by
  induction a generalizing b with
  | nil =>
    have h0 := mul_nonneg (dot_self_nonneg ([] : List ℚ)) (dot_self_nonneg b)
    rw [dot_nil_left, dot_nil_left]
    nlinarith [h0]
  | cons x a ih =>
    cases b with
    | nil =>
      have h0 := mul_nonneg (dot_self_nonneg (x :: a)) (dot_self_nonneg ([] : List ℚ))
      rw [dot_nil_right, dot_nil_right]
      nlinarith [h0]
    | cons y b =>
      have hab := ih b
      have hA := dot_self_nonneg a
      have hB := dot_self_nonneg b
      simp only [dot]
      rcases lt_or_eq_of_le hB with hBpos | hB0
      · nlinarith [sq_nonneg (x * dot b b - y * dot a b),
          mul_nonneg (sub_nonneg.2 hab) (add_nonneg (mul_self_nonneg y) hB), hBpos]
      · have hd2 : dot a b ^ 2 = 0 := by
          refine le_antisymm ?_ (sq_nonneg _)
          calc dot a b ^ 2 ≤ dot a a * dot b b := hab
            _ = 0 := by rw [← hB0, mul_zero]
        have hd : dot a b = 0 := by
          have h0 := sq_nonneg (dot a b)
          nlinarith [hd2]
        rw [← hB0, hd]
        nlinarith [mul_nonneg hA (mul_self_nonneg y)]

/-- Modelled from the spec: the Similarity Utility of src/lib/agentSimulation.js,
which is absent from the snapshot.  Returns dot(a,b) divided by the product of
the magnitudes, and exactly 0 whenever either vector has zero magnitude.  A
vector has zero magnitude exactly when its self dot product is zero. -/
noncomputable def cosineSimilarity (a b : List ℚ) : ℝ :=
  if dot a a = 0 ∨ dot b b = 0 then 0
  else (dot a b : ℝ) / (Real.sqrt (dot a a : ℚ) * Real.sqrt (dot b b : ℚ))

theorem cosineSimilarity_comm (a b : List ℚ) :
    cosineSimilarity a b = cosineSimilarity b a := by
  unfold cosineSimilarity
  rw [dot_comm a b]
  by_cases h : dot a a = 0 ∨ dot b b = 0
  · rw [if_pos h, if_pos (Or.symm h)]
  · rw [if_neg h, if_neg (fun hc => h (Or.symm hc))]
    rw [mul_comm]

theorem cosineSimilarity_zero_left (a b : List ℚ) (h : dot a a = 0) :
    cosineSimilarity a b = 0 := by
  unfold cosineSimilarity
  rw [if_pos (Or.inl h)]

theorem cosineSimilarity_zero_right (a b : List ℚ) (h : dot b b = 0) :
    cosineSimilarity a b = 0 := by
  unfold cosineSimilarity
  rw [if_pos (Or.inr h)]

theorem cosineSimilarity_mem_Icc (a b : List ℚ) :
    -1 ≤ cosineSimilarity a b ∧ cosineSimilarity a b ≤ 1 := by
  unfold cosineSimilarity
  by_cases h : dot a a = 0 ∨ dot b b = 0
  · rw [if_pos h]; norm_num
  · rw [if_neg h]
    push_neg at h
    have hA : (0 : ℚ) < dot a a := lt_of_le_of_ne (dot_self_nonneg a) (Ne.symm h.1)
    have hB : (0 : ℚ) < dot b b := lt_of_le_of_ne (dot_self_nonneg b) (Ne.symm h.2)
    have hAr : (0 : ℝ) < ((dot a a : ℚ) : ℝ) := by exact_mod_cast hA
    have hBr : (0 : ℝ) < ((dot b b : ℚ) : ℝ) := by exact_mod_cast hB
    have hsA : (0 : ℝ) < Real.sqrt (dot a a : ℚ) := Real.sqrt_pos.2 hAr
    have hsB : (0 : ℝ) < Real.sqrt (dot b b : ℚ) := Real.sqrt_pos.2 hBr
    have hD : (0 : ℝ) < Real.sqrt (dot a a : ℚ) * Real.sqrt (dot b b : ℚ) :=
      mul_pos hsA hsB
    have hcs : ((dot a b : ℚ) : ℝ) ^ 2 ≤ ((dot a a : ℚ) : ℝ) * ((dot b b : ℚ) : ℝ) := by
      exact_mod_cast dot_sq_le_dot_mul_dot a b
    have habs : |((dot a b : ℚ) : ℝ)| ≤ Real.sqrt (dot a a : ℚ) * Real.sqrt (dot b b : ℚ) := by
      rw [← Real.sqrt_mul (le_of_lt hAr)]
      calc |((dot a b : ℚ) : ℝ)| = Real.sqrt (((dot a b : ℚ) : ℝ) ^ 2) :=
            (Real.sqrt_sq_eq_abs _).symm
        _ ≤ Real.sqrt (((dot a a : ℚ) : ℝ) * ((dot b b : ℚ) : ℝ)) := Real.sqrt_le_sqrt hcs
    rw [abs_le] at habs
    constructor
    · rw [le_div_iff₀ hD]; linarith [habs.1]
    · rw [div_le_one hD]; exact habs.2

theorem cosineSimilarity_self (a : List ℚ) (h : dot a a ≠ 0) :
    cosineSimilarity a a = 1 := by
  unfold cosineSimilarity
  rw [if_neg (by tauto)]
  have hA : (0 : ℚ) < dot a a := lt_of_le_of_ne (dot_self_nonneg a) (Ne.symm h)
  have hAr : (0 : ℝ) ≤ ((dot a a : ℚ) : ℝ) := by exact_mod_cast le_of_lt hA
  rw [Real.mul_self_sqrt hAr]
  exact div_self (by exact_mod_cast ne_of_gt hA)

theorem cosineSimilarity_neg_self (a : List ℚ) (h : dot a a ≠ 0) :
    cosineSimilarity a (a.map (fun x => -x)) = -1 := by
  unfold cosineSimilarity
  rw [dot_neg_neg, dot_neg_right]
  rw [if_neg (by tauto)]
  have hA : (0 : ℚ) < dot a a := lt_of_le_of_ne (dot_self_nonneg a) (Ne.symm h)
  have hAr : (0 : ℝ) ≤ ((dot a a : ℚ) : ℝ) := by exact_mod_cast le_of_lt hA
  rw [Real.mul_self_sqrt hAr]
  push_cast
  rw [neg_div]
  rw [div_self (by exact_mod_cast ne_of_gt hA)]

/-- C2: for equal-length vectors with nonzero magnitudes, cosineSimilarity
equals dot(a,b) / (sqrt(dot a a) * sqrt(dot b b)) and lies in the interval
from -1 to 1; cosineSimilarity of a vector with itself is 1 and with its
negation is -1; and whenever either argument has zero magnitude the result
is exactly 0. -/
theorem cosineSimilarity_spec (a b : List ℚ)
    (ha : dot a a ≠ 0) (hb : dot b b ≠ 0) :
    cosineSimilarity a b =
      (dot a b : ℝ) / (Real.sqrt (dot a a : ℚ) * Real.sqrt (dot b b : ℚ)) ∧
    -1 ≤ cosineSimilarity a b ∧ cosineSimilarity a b ≤ 1 ∧
    cosineSimilarity a a = 1 ∧
    cosineSimilarity a (a.map (fun x => -x)) = -1 ∧
    (∀ c d : List ℚ, dot c c = 0 ∨ dot d d = 0 → cosineSimilarity c d = 0) := by
  refine ⟨?_, (cosineSimilarity_mem_Icc a b).1, (cosineSimilarity_mem_Icc a b).2,
    cosineSimilarity_self a ha, cosineSimilarity_neg_self a ha, ?_⟩
  · unfold cosineSimilarity
    rw [if_neg (by tauto)]
  · intro c d hcd
    rcases hcd with h | h
    · exact cosineSimilarity_zero_left c d h
    · exact cosineSimilarity_zero_right c d h

/-- Witness for C2 at concrete vectors with nonzero magnitudes. -/
theorem cosineSimilarity_spec_witness :
    dot [(1 : ℚ), 2] [1, 2] ≠ 0 ∧ dot [(2 : ℚ), 1] [2, 1] ≠ 0 ∧
    (cosineSimilarity [(1 : ℚ), 2] [2, 1] =
      (dot [(1 : ℚ), 2] [2, 1] : ℝ) /
        (Real.sqrt (dot [(1 : ℚ), 2] [1, 2] : ℚ) * Real.sqrt (dot [(2 : ℚ), 1] [2, 1] : ℚ)) ∧
    -1 ≤ cosineSimilarity [(1 : ℚ), 2] [2, 1] ∧
    cosineSimilarity [(1 : ℚ), 2] [2, 1] ≤ 1 ∧
    cosineSimilarity [(1 : ℚ), 2] [1, 2] = 1 ∧
    cosineSimilarity [(1 : ℚ), 2] ([(1 : ℚ), 2].map (fun x => -x)) = -1 ∧
    (∀ c d : List ℚ, dot c c = 0 ∨ dot d d = 0 → cosineSimilarity c d = 0)) :=
  ⟨by norm_num [dot], by norm_num [dot], cosineSimilarity_spec [1, 2] [2, 1] (by norm_num [dot]) (by norm_num [dot])⟩

/-- An agent: an opinion vector and a cluster id, as in the data model. -/
structure Agent where
  values : List ℚ
  cluster : ℕ
deriving Repr, DecidableEq

instance : Inhabited Agent := ⟨⟨[], 0⟩⟩

/-- A topic: id, anchor vector, display name, target-topic marker. -/
structure Topic where
  id : ℕ
  vector : List ℚ
  name : String
  isTargetTopic : Bool
deriving Repr, DecidableEq

instance : Inhabited Topic := ⟨⟨0, [], "", false⟩⟩

def vecAdd (a b : List ℚ) : List ℚ := List.zipWith (· + ·) a b

def vecSub (a b : List ℚ) : List ℚ := List.zipWith (· - ·) a b

def vecScale (c : ℚ) (a : List ℚ) : List ℚ := a.map (fun x => c * x)

def zeroVec (d : ℕ) : List ℚ := List.replicate d 0

def sumVecs (d : ℕ) (l : List (List ℚ)) : List ℚ := l.foldr vecAdd (zeroVec d)

theorem length_vecAdd (a b : List ℚ) : (vecAdd a b).length = min a.length b.length := by
  simp [vecAdd]

theorem length_vecSub (a b : List ℚ) : (vecSub a b).length = min a.length b.length := by
  simp [vecSub]

/-- Squared Euclidean distance between two vectors. -/
def distSq (a b : List ℚ) : ℚ := dot (vecSub a b) (vecSub a b)

/-- Index of the center closest to v in squared Euclidean distance, ties
resolved toward the lowest index. -/
def nearestCenter (v : List ℚ) (centers : List (List ℚ)) : ℕ :=
  (List.range centers.length).foldl
    (fun best j => if distSq v (centers.getD j []) < distSq v (centers.getD best []) then j else best)
    0

/-- Clamp a rational into the interval from -1 to 1, used to map the raw
random stream into the coordinate range the spec draws from. -/
def clampUnit (q : ℚ) : ℚ := max (-1) (min 1 q)

/-- Small symmetric perturbation derived from a raw random value. -/
def smallNoise (q : ℚ) : ℚ := clampUnit q / 4

/-- Result of population generation: agents plus cluster centers. -/
structure PopulationResult where
  agents : List Agent
  clusterCenters : List (List ℚ)

/-- Cluster centers: k points of the given dimension, coordinates drawn from
the random stream clamped into the interval from -1 to 1. -/
def genCenters (rng : ℕ → ℚ) (dim k : ℕ) : List (List ℚ) :=
  List.ofFn (fun c : Fin k => List.ofFn (fun j : Fin dim => clampUnit (rng (c.1 * dim + j.1))))

theorem length_genCenters (rng : ℕ → ℚ) (dim k : ℕ) :
    (genCenters rng dim k).length = k := by simp [genCenters]

theorem mem_genCenters_length (rng : ℕ → ℚ) (dim k : ℕ) :
    ∀ c ∈ genCenters rng dim k, c.length = dim := by
  intro c hc
  rw [genCenters, List.mem_ofFn] at hc
  obtain ⟨i, hi⟩ := hc
  rw [← hi]
  simp

theorem length_getD_genCenters (rng : ℕ → ℚ) (dim k c : ℕ) (h : c < k) :
    ((genCenters rng dim k).getD c (zeroVec dim)).length = dim := by
  rw [List.getD_eq_getElem _ _ (by simp [genCenters, h])]
  simp [genCenters]

/-- Modelled from the spec: generateAgentPopulation (known in the spec as
generatePopulation) of src/lib/agentSimulation.js, absent from the snapshot.
The random source is an explicit stream of rationals.  Cluster centers are
clusterCount points with coordinates drawn from the stream clamped into the
interval from -1 to 1.  Without custom vectors, each of count agents is
assigned a cluster round-robin and its vector perturbs the assigned center
by small symmetric noise.  With custom vectors, count and dimension are
ignored: each supplied vector becomes one agent, assigned to the nearest
generated center. -/
def generateAgentPopulation (rng : ℕ → ℚ) (count dimension clusterCount : ℕ)
    (customVectors : Option (List (List ℚ))) : PopulationResult :=
  match customVectors with
  | some cvs =>
      { agents := List.ofFn (fun i : Fin cvs.length =>
          { values := cvs.get i,
            cluster := nearestCenter (cvs.get i)
              (genCenters rng (cvs.headD []).length clusterCount) }),
        clusterCenters := genCenters rng (cvs.headD []).length clusterCount }
  | none =>
      { agents := List.ofFn (fun i : Fin count =>
          { values := vecAdd
              ((genCenters rng dimension clusterCount).getD (i.1 % clusterCount)
                (zeroVec dimension))
              (List.ofFn (fun j : Fin dimension =>
                smallNoise (rng (clusterCount * dimension + i.1 * dimension + j.1)))),
            cluster := i.1 % clusterCount }),
        clusterCenters := genCenters rng dimension clusterCount }

/-- C3: for positive n, d, k, generateAgentPopulation returns exactly n
agents whose value vectors all have length d, exactly k cluster centers of
length d, and every assigned cluster id is below k. -/
theorem generateAgentPopulation_counts (rng : ℕ → ℚ) (n d k : ℕ)
    (_hn : 0 < n) (_hd : 0 < d) (hk : 0 < k) :
    (generateAgentPopulation rng n d k none).agents.length = n ∧
    (∀ a ∈ (generateAgentPopulation rng n d k none).agents, a.values.length = d) ∧
    (generateAgentPopulation rng n d k none).clusterCenters.length = k ∧
    (∀ c ∈ (generateAgentPopulation rng n d k none).clusterCenters, c.length = d) ∧
    (∀ a ∈ (generateAgentPopulation rng n d k none).agents, a.cluster < k) := by
  unfold generateAgentPopulation
  refine ⟨by simp, ?_, length_genCenters rng d k, mem_genCenters_length rng d k, ?_⟩
  · intro a ha
    simp only [List.mem_ofFn] at ha
    obtain ⟨i, hi⟩ := ha
    rw [← hi]
    simp only [length_vecAdd, List.length_ofFn]
    rw [length_getD_genCenters rng d k _ (Nat.mod_lt _ hk)]
    simp
  · intro a ha
    simp only [List.mem_ofFn] at ha
    obtain ⟨i, hi⟩ := ha
    rw [← hi]
    exact Nat.mod_lt _ hk

/-- Witness for C3 at n = 2, d = 3, k = 2 and the zero random stream. -/
theorem generateAgentPopulation_counts_witness :
    0 < 2 ∧ 0 < 3 ∧ 0 < 2 ∧
    ((generateAgentPopulation (fun _ => 0) 2 3 2 none).agents.length = 2 ∧
    (∀ a ∈ (generateAgentPopulation (fun _ => 0) 2 3 2 none).agents, a.values.length = 3) ∧
    (generateAgentPopulation (fun _ => 0) 2 3 2 none).clusterCenters.length = 2 ∧
    (∀ c ∈ (generateAgentPopulation (fun _ => 0) 2 3 2 none).clusterCenters, c.length = 3) ∧
    (∀ a ∈ (generateAgentPopulation (fun _ => 0) 2 3 2 none).agents, a.cluster < 2)) :=
  ⟨by decide, by decide, by decide,
    generateAgentPopulation_counts (fun _ => 0) 2 3 2 (by decide) (by decide) (by decide)⟩

/-- C8: with m custom vectors supplied, generateAgentPopulation returns
exactly m agents whose values equal the supplied vectors pointwise, and the
count and dimension arguments are ignored entirely. -/
theorem generateAgentPopulation_custom_vectors (rng : ℕ → ℚ) (k : ℕ)
    (cvs : List (List ℚ)) (n d n' d' : ℕ) :
    (generateAgentPopulation rng n d k (some cvs)).agents.length = cvs.length ∧
    (∀ i, i < cvs.length →
      ((generateAgentPopulation rng n d k (some cvs)).agents.getD i default).values =
        cvs.getD i []) ∧
    generateAgentPopulation rng n d k (some cvs) =
      generateAgentPopulation rng n' d' k (some cvs) := by
  refine ⟨by simp [generateAgentPopulation], ?_, rfl⟩
  intro i hi
  unfold generateAgentPopulation
  simp only
  rw [List.getD_eq_getElem _ _ (by simp [hi]), List.getElem_ofFn]
  rw [List.getD_eq_getElem _ _ hi]
  simp

/-- Witness for C8 at two concrete custom vectors. -/
theorem generateAgentPopulation_custom_vectors_witness :
    (generateAgentPopulation (fun _ => 0) 7 9 2 (some [[1, 0], [0, 1]])).agents.length = 2 ∧
    (∀ i, i < ([[(1 : ℚ), 0], [0, 1]] : List (List ℚ)).length →
      ((generateAgentPopulation (fun _ => 0) 7 9 2
          (some [[1, 0], [0, 1]])).agents.getD i default).values =
        ([[(1 : ℚ), 0], [0, 1]] : List (List ℚ)).getD i []) ∧
    generateAgentPopulation (fun _ => 0) 7 9 2 (some [[1, 0], [0, 1]]) =
      generateAgentPopulation (fun _ => 0) 5 3 2 (some [[1, 0], [0, 1]]) :=
  generateAgentPopulation_custom_vectors (fun _ => 0) 2 [[1, 0], [0, 1]] 7 9 5 3

/-- Scenario selector, a closed tagged variant as the spec prescribes. -/
inductive Scenario where
  | A : Scenario
  | B : Scenario
deriving Repr, DecidableEq

/-- Default number of generated topics. -/
def defaultTopicCount : ℕ := 10

/-- A fresh random vector of the given dimension taken from the stream at
the given offset, coordinates clamped into the interval from -1 to 1. -/
def genRandomVector (rng : ℕ → ℚ) (dim off : ℕ) : List ℚ :=
  List.ofFn (fun j : Fin dim => clampUnit (rng (off + j.1)))

theorem length_genRandomVector (rng : ℕ → ℚ) (dim off : ℕ) :
    (genRandomVector rng dim off).length = dim := by simp [genRandomVector]

/-- A cluster center perturbed coordinate-wise by small symmetric noise. -/
def perturbCenter (rng : ℕ → ℚ) (center : List ℚ) (off : ℕ) : List ℚ :=
  vecAdd center (List.ofFn (fun j : Fin center.length => smallNoise (rng (off + j.1))))

theorem length_perturbCenter (rng : ℕ → ℚ) (center : List ℚ) (off : ℕ) :
    (perturbCenter rng center off).length = center.length := by
  simp [perturbCenter, length_vecAdd]

/-- Modelled from the spec: generateTopics of src/lib/agentSimulation.js,
absent from the snapshot.  With custom vectors each supplied vector becomes
one topic.  Otherwise ten topics are generated: scenario A draws every
vector at random; scenario B snaps one topic toward each available cluster
center, marks it as a target topic, and fills the remainder with random
vectors. -/
def generateTopics (rng : ℕ → ℚ) (dimension : ℕ) (scenario : Scenario)
    (clusterCenters : List (List ℚ)) (customVectors : Option (List (List ℚ))) : List Topic :=
  match customVectors with
  | some cvs => List.ofFn (fun i : Fin cvs.length =>
      { id := i.1, vector := cvs.get i, name := "Custom topic", isTargetTopic := false })
  | none =>
    match scenario with
    | .A => List.ofFn (fun i : Fin defaultTopicCount =>
        { id := i.1, vector := genRandomVector rng dimension (i.1 * dimension),
          name := "Topic", isTargetTopic := false })
    | .B => List.ofFn (fun i : Fin defaultTopicCount =>
        if h : i.1 < clusterCenters.length then
          { id := i.1,
            vector := perturbCenter rng (clusterCenters.get ⟨i.1, h⟩) (i.1 * dimension),
            name := "Target topic", isTargetTopic := true }
        else
          { id := i.1, vector := genRandomVector rng dimension (i.1 * dimension),
            name := "Topic", isTargetTopic := false })

/-- C7: in scenario B with a non-empty list of cluster centers of dimension
d, generateTopics yields the default count of ten topics, every topic
vector has length d, and at least one topic is marked as a target topic;
with custom vectors supplied the topic count equals the number of supplied
vectors. -/
theorem generateTopics_scenarioB_target (rng : ℕ → ℚ) (d : ℕ)
    (centers : List (List ℚ)) (hne : centers ≠ [])
    (hlen : ∀ c ∈ centers, c.length = d) :
    (generateTopics rng d Scenario.B centers none).length = 10 ∧
    (∀ t ∈ generateTopics rng d Scenario.B centers none, t.vector.length = d) ∧
    (∃ t ∈ generateTopics rng d Scenario.B centers none, t.isTargetTopic = true) ∧
    (∀ s cvs, (generateTopics rng d s centers (some cvs)).length = cvs.length) := by
  have hpos : 0 < centers.length := List.length_pos.2 hne
  refine ⟨by simp [generateTopics, defaultTopicCount], ?_, ?_, ?_⟩
  · intro t ht
    rw [generateTopics, List.mem_ofFn] at ht
    obtain ⟨i, hi⟩ := ht
    rw [← hi]
    dsimp only
    split
    · simp only [length_perturbCenter]
      exact hlen _ (centers.get_mem _ _)
    · exact length_genRandomVector rng d _
  · have hmem : ∀ f : Fin defaultTopicCount → Topic,
        f ⟨0, by norm_num [defaultTopicCount]⟩ ∈ List.ofFn f :=
      fun f => (List.mem_ofFn f _).2 ⟨_, rfl⟩
    rw [generateTopics]
    refine ⟨_, hmem _, ?_⟩
    dsimp only
    rw [dif_pos (by simpa using hpos)]
  · intro s cvs
    cases s <;> simp [generateTopics]

/-- Witness for C7 at two concrete centers of dimension 2. -/
theorem generateTopics_scenarioB_target_witness :
    ([[(1 : ℚ), 0], [0, 1]] : List (List ℚ)) ≠ [] ∧
    (∀ c ∈ ([[(1 : ℚ), 0], [0, 1]] : List (List ℚ)), c.length = 2) ∧
    ((generateTopics (fun _ => 0) 2 Scenario.B [[1, 0], [0, 1]] none).length = 10 ∧
    (∀ t ∈ generateTopics (fun _ => 0) 2 Scenario.B [[1, 0], [0, 1]] none,
      t.vector.length = 2) ∧
    (∃ t ∈ generateTopics (fun _ => 0) 2 Scenario.B [[1, 0], [0, 1]] none,
      t.isTargetTopic = true) ∧
    (∀ s cvs, (generateTopics (fun _ => 0) 2 s [[1, 0], [0, 1]] (some cvs)).length =
      cvs.length)) :=
  ⟨by decide, by decide,
    generateTopics_scenarioB_target (fun _ => 0) 2 [[1, 0], [0, 1]] (by decide) (by decide)⟩

/-- Entry of a nested-list rational matrix, with 0 outside the bounds. -/
def entryQ (m : List (List ℚ)) (i j : ℕ) : ℚ := (m.getD i []).getD j 0

/-- A visualization node: agent id, its cluster, and its degree. -/
structure VizNode where
  id : ℕ
  cluster : ℕ
  degree : ℕ
deriving Repr, DecidableEq

/-- A visualization link for one unordered pair of agents. -/
structure VizLink where
  source : ℕ
  target : ℕ
  value : ℚ
deriving Repr, DecidableEq

/-- Visualization payload: one node per agent, one link per pair above the
threshold. -/
structure VizData where
  nodes : List VizNode
  links : List VizLink

/-- All ordered pairs i, j with i strictly below j, both below n. -/
def pairList (n : ℕ) : List (ℕ × ℕ) :=
  ((List.range n) ×ˢ (List.range n)).filter (fun p => decide (p.1 < p.2))

/-- Modelled from the spec: prepareVisualizationData (known in the spec as
projectForVisualization) of src/lib/agentSimulation.js, absent from the
snapshot.  One node per agent carrying its cluster id and its degree, the
count of partners whose connection lies strictly above the threshold; one
link per unordered pair whose connection lies strictly above the
threshold. -/
def prepareVisualizationData (agents : List Agent) (connections : List (List ℚ))
    (threshold : ℚ) : VizData :=
  { nodes := List.ofFn (fun i : Fin agents.length =>
      { id := i.1, cluster := (agents.get i).cluster,
        degree := ((List.range agents.length).filter
          (fun j => decide (j ≠ i.1) && decide (threshold < entryQ connections i.1 j))).length }),
    links := ((pairList agents.length).filter
        (fun p => decide (threshold < entryQ connections p.1 p.2))).map
      (fun p => { source := p.1, target := p.2, value := entryQ connections p.1 p.2 }) }

/-- C4: a link is emitted exactly for each unordered pair of agent indices
whose connection entry lies strictly above the threshold, and raising the
threshold never increases the link count. -/
theorem prepareVisualizationData_links_monotone (agents : List Agent)
    (connections : List (List ℚ)) (t1 t2 : ℚ) (h : t1 ≤ t2) :
    (prepareVisualizationData agents connections t2).links.length ≤
      (prepareVisualizationData agents connections t1).links.length ∧
    (∀ i j : ℕ,
      (∃ l ∈ (prepareVisualizationData agents connections t1).links,
          l.source = i ∧ l.target = j) ↔
        (i < j ∧ j < agents.length ∧ t1 < entryQ connections i j)) := by
  constructor
  · simp only [prepareVisualizationData, List.length_map]
    refine List.Sublist.length_le (List.monotone_filter_right _ ?_)
    intro p hp
    simp only [decide_eq_true_eq] at hp ⊢
    exact lt_of_le_of_lt h hp
  · intro i j
    constructor
    · rintro ⟨l, hl, hs, ht⟩
      simp only [prepareVisualizationData, List.mem_map] at hl
      obtain ⟨p, hp, rfl⟩ := hl
      obtain ⟨pi, pj⟩ := p
      obtain rfl : pi = i := hs
      obtain rfl : pj = j := ht
      rw [List.mem_filter] at hp
      obtain ⟨hpair, hplt⟩ := hp
      rw [pairList, List.mem_filter] at hpair
      obtain ⟨hprod, hij⟩ := hpair
      rw [List.mem_product] at hprod
      simp only [List.mem_range] at hprod
      simp only [decide_eq_true_eq] at hij hplt
      exact ⟨hij, hprod.2, hplt⟩
    · rintro ⟨hij, hjn, hlt⟩
      refine ⟨{ source := i, target := j, value := entryQ connections i j }, ?_, rfl, rfl⟩
      simp only [prepareVisualizationData, List.mem_map]
      refine ⟨(i, j), ?_, rfl⟩
      simp only [List.mem_filter, pairList, List.mem_product, List.mem_range,
        decide_eq_true_eq]
      exact ⟨⟨⟨Nat.lt_trans hij hjn, hjn⟩, hij⟩, hlt⟩

/-- Witness for C4 at a concrete matrix and thresholds. -/
theorem prepareVisualizationData_links_monotone_witness :
    (1 : ℚ) / 4 ≤ (3 : ℚ) / 4 ∧
    ((prepareVisualizationData [⟨[1], 0⟩, ⟨[0], 1⟩] [[0, 1/2], [1/2, 0]] (3/4)).links.length ≤
      (prepareVisualizationData [⟨[1], 0⟩, ⟨[0], 1⟩] [[0, 1/2], [1/2, 0]] (1/4)).links.length ∧
    (∀ i j : ℕ,
      (∃ l ∈ (prepareVisualizationData [⟨[1], 0⟩, ⟨[0], 1⟩]
          [[0, 1/2], [1/2, 0]] (1/4)).links, l.source = i ∧ l.target = j) ↔
        (i < j ∧ j < ([⟨[1], 0⟩, ⟨[0], 1⟩] : List Agent).length ∧
          (1 : ℚ) / 4 < entryQ [[0, 1/2], [1/2, 0]] i j))) :=
  ⟨by norm_num,
    prepareVisualizationData_links_monotone [⟨[1], 0⟩, ⟨[0], 1⟩]
      [[0, 1/2], [1/2, 0]] (1/4) (3/4) (by norm_num)⟩

/-- Clip a real number into the interval from 0 to 1. -/
noncomputable def clip01 (x : ℝ) : ℝ := max 0 (min 1 x)

/-- Step size of the mutual-influence nudge, a tunable constant the spec
leaves open. -/
def influenceStep : ℚ := 1 / 10

/-- Multiplicative decay applied to connections of pairs at or below the
threshold, a tunable constant the spec leaves open. -/
def decayFactor : ℚ := 9 / 10

/-- Values of the agent at an index, the empty vector out of bounds. -/
def valuesAt (ags : List Agent) (i : ℕ) : List ℚ := (ags.getD i default).values

/-- Similarity of the opinion vectors of two agents picked by index. -/
noncomputable def pairSim (ags : List Agent) (i j : ℕ) : ℝ :=
  cosineSimilarity (valuesAt ags i) (valuesAt ags j)

/-- One connection update: move toward the similarity when it exceeds the
threshold, otherwise decay slightly; always clipped into 0..1. -/
noncomputable def updConn (threshold : ℚ) (old sim : ℝ) : ℝ :=
  if (threshold : ℝ) < sim then clip01 (old + (influenceStep : ℝ) * (sim - old))
  else clip01 ((decayFactor : ℝ) * old)

/-- Modelled from the spec: the per-cycle connection-matrix update of
runSimulation in src/lib/agentSimulation.js, absent from the snapshot.
Every unordered pair of distinct in-range indices is updated symmetrically
from the current similarity of the pair; the diagonal is never touched. -/
noncomputable def stepConn (ags : List Agent) (threshold : ℚ) (conn : ℕ → ℕ → ℝ) :
    ℕ → ℕ → ℝ :=
  fun i j =>
    if i = j ∨ ¬(i < ags.length ∧ j < ags.length) then conn i j
    else updConn threshold (conn i j) (pairSim ags i j)

open Classical in
/-- Modelled from the spec: the synchronous per-cycle opinion update of
runSimulation in src/lib/agentSimulation.js, absent from the snapshot.
All new vectors are computed from the complete previous state: each agent
is nudged toward every peer above the threshold and toward every topic it
is sufficiently aligned with. -/
noncomputable def stepAgents (ags : List Agent) (topics : List Topic) (threshold : ℚ) :
    List Agent :=
  List.ofFn (fun i : Fin ags.length =>
    let a := ags.get i
    let peers := ((List.range ags.length).filter
        (fun j => decide (j ≠ i.1 ∧ (threshold : ℝ) < pairSim ags i.1 j))).map
      (fun j => vecSub (valuesAt ags j) a.values)
    let pulls := (topics.filter
        (fun t => decide ((threshold : ℝ) < cosineSimilarity a.values t.vector))).map
      (fun t => vecSub t.vector a.values)
    { values := vecAdd a.values (vecScale influenceStep (sumVecs a.values.length (peers ++ pulls))),
      cluster := a.cluster })

/-- Cluster ids currently carried by at least one agent, ascending. -/
def activeClusterIds (ags : List Agent) : List ℕ :=
  (List.range ((ags.map (fun a => a.cluster)).foldr max 0 + 1)).filter
    (fun c => ags.any (fun a => a.cluster == c))

/-- Values of the members of one cluster. -/
def memberValues (ags : List Agent) (c : ℕ) : List (List ℚ) :=
  (ags.filter (fun a => a.cluster == c)).map (fun a => a.values)

/-- Coordinate-wise mean of the members of one cluster. -/
def centroid (ags : List Agent) (c : ℕ) : List ℚ :=
  vecScale (1 / ((memberValues ags c).length : ℚ))
    (sumVecs ((memberValues ags c).headD []).length (memberValues ags c))

open Classical in
/-- Cluster id whose center is most similar to v, ties resolved toward the
earliest listed id. -/
noncomputable def bestCluster (v : List ℚ) : List (ℕ × List ℚ) → ℕ
  | [] => 0
  | c :: rest => (rest.foldl (fun best cand =>
      if cosineSimilarity v best.2 < cosineSimilarity v cand.2 then cand else best) c).1

/-- Modelled from the spec: recalculateClusters of
src/lib/agentSimulation.js, absent from the snapshot.  Centers of clusters
with members are recomputed as the mean of the member vectors, empty
clusters are dropped, and every agent is reassigned to the most similar
surviving center; only the cluster field of an agent changes. -/
noncomputable def recalculateClusters (ags : List Agent) : List Agent :=
  ags.map (fun a =>
    let cs := (activeClusterIds ags).map (fun c => (c, centroid ags c))
    { a with cluster := bestCluster a.values cs })

/-- One simulation cycle of index t: symmetric connection update and
synchronous opinion update from the previous state, then periodic cluster
reassignment when the cadence divides the completed cycle count. -/
noncomputable def cycleStep (topics : List Topic) (threshold : ℚ) (ra t : ℕ)
    (st : List Agent × (ℕ → ℕ → ℝ)) : List Agent × (ℕ → ℕ → ℝ) :=
  (if ra ≠ 0 ∧ (t + 1) % ra = 0 then recalculateClusters (stepAgents st.1 topics threshold)
   else stepAgents st.1 topics threshold,
   stepConn st.1 threshold st.2)

/-- The cycle loop: exactly fuel further cycles starting at cycle index t. -/
noncomputable def simLoop (topics : List Topic) (threshold : ℚ) (ra : ℕ) :
    ℕ → ℕ → List Agent × (ℕ → ℕ → ℝ) → List Agent × (ℕ → ℕ → ℝ)
  | _, 0, st => st
  | t, fuel + 1, st => simLoop topics threshold ra (t + 1) fuel (cycleStep topics threshold ra t st)

/-- Result of a simulation run: final agents and the connection matrix. -/
structure SimResult where
  agents : List Agent
  connections : List (List ℝ)

/-- Modelled from the spec: the loop body of runSimulation of
src/lib/agentSimulation.js, absent from the snapshot.  The connection
matrix starts at zero and the loop runs exactly the requested number of
cycles; the final matrix is materialized as a nested list over the final
population. -/
noncomputable def simulate (agents : List Agent) (topics : List Topic) (cycles : ℕ)
    (threshold : ℚ) (ra : ℕ) : SimResult :=
  { agents := (simLoop topics threshold ra 0 cycles (agents, fun _ _ => 0)).1,
    connections :=
      List.ofFn (fun i : Fin (simLoop topics threshold ra 0 cycles (agents, fun _ _ => 0)).1.length =>
        List.ofFn (fun j : Fin (simLoop topics threshold ra 0 cycles (agents, fun _ _ => 0)).1.length =>
          (simLoop topics threshold ra 0 cycles (agents, fun _ _ => 0)).2 i.1 j.1)) }

/-- Dimensional consistency: all agent vectors and all topic vectors share
the length of the vector of the first agent. -/
def dimsConsistent (agents : List Agent) (topics : List Topic) : Bool :=
  agents.all (fun a => a.values.length == (agents.headD default).values.length) &&
    topics.all (fun t => t.vector.length == (agents.headD default).values.length)

/-- Modelled from the spec: runSimulation of src/lib/agentSimulation.js,
absent from the snapshot.  Contract violations fail fast with a descriptive
error and no partial result; valid inputs run the cycle loop. -/
noncomputable def runSimulation (agents : List Agent) (topics : List Topic) (cycles : ℤ)
    (threshold : ℚ) (recalculateAfter : ℤ) : Except String SimResult :=
  if agents = [] then Except.error "agents must be a non-empty list"
  else if topics = [] then Except.error "topics must be a non-empty list"
  else if dimsConsistent agents topics = false then
    Except.error "agents and topics must be dimensionally consistent"
  else if threshold < 0 ∨ 1 < threshold then
    Except.error "threshold must be between 0 and 1"
  else if cycles < 0 then Except.error "cycles must be non-negative"
  else if recalculateAfter < 0 then Except.error "recalculateAfter must be non-negative"
  else Except.ok (simulate agents topics cycles.toNat threshold recalculateAfter.toNat)

/-- Entry of a nested-list real matrix, with 0 outside the bounds. -/
def entryR (m : List (List ℝ)) (i j : ℕ) : ℝ := (m.getD i []).getD j 0

/-- Invariant of the internal connection table: zero diagonal, symmetry,
and all entries between 0 and 1. -/
def ConnInv (c : ℕ → ℕ → ℝ) : Prop :=
  (∀ i, c i i = 0) ∧ (∀ i j, c i j = c j i) ∧ (∀ i j, 0 ≤ c i j ∧ c i j ≤ 1)

theorem clip01_nonneg (x : ℝ) : 0 ≤ clip01 x := le_max_left 0 _

theorem clip01_le_one (x : ℝ) : clip01 x ≤ 1 :=
  max_le zero_le_one (min_le_left 1 x)

theorem updConn_nonneg (threshold : ℚ) (old sim : ℝ) : 0 ≤ updConn threshold old sim := by
  unfold updConn
  split <;> exact clip01_nonneg _

theorem updConn_le_one (threshold : ℚ) (old sim : ℝ) : updConn threshold old sim ≤ 1 := by
  unfold updConn
  split <;> exact clip01_le_one _

theorem pairSim_comm (ags : List Agent) (i j : ℕ) : pairSim ags i j = pairSim ags j i :=
  cosineSimilarity_comm _ _

theorem ConnInv_stepConn (ags : List Agent) (threshold : ℚ) (conn : ℕ → ℕ → ℝ)
    (h : ConnInv conn) : ConnInv (stepConn ags threshold conn) := by
  obtain ⟨hdiag, hsym, hbnd⟩ := h
  refine ⟨?_, ?_, ?_⟩
  · intro i
    rw [stepConn, if_pos (Or.inl rfl)]
    exact hdiag i
  · intro i j
    unfold stepConn
    by_cases hc : i = j ∨ ¬(i < ags.length ∧ j < ags.length)
    · have hc' : j = i ∨ ¬(j < ags.length ∧ i < ags.length) := by tauto
      rw [if_pos hc, if_pos hc']
      exact hsym i j
    · have hc' : ¬(j = i ∨ ¬(j < ags.length ∧ i < ags.length)) := by tauto
      rw [if_neg hc, if_neg hc']
      rw [hsym i j, pairSim_comm ags i j]
  · intro i j
    unfold stepConn
    split
    · exact hbnd i j
    · exact ⟨updConn_nonneg _ _ _, updConn_le_one _ _ _⟩

theorem ConnInv_cycleStep (topics : List Topic) (threshold : ℚ) (ra t : ℕ)
    (st : List Agent × (ℕ → ℕ → ℝ)) (h : ConnInv st.2) :
    ConnInv (cycleStep topics threshold ra t st).2 :=
  ConnInv_stepConn st.1 threshold st.2 h

theorem ConnInv_simLoop (topics : List Topic) (threshold : ℚ) (ra : ℕ) :
    ∀ (fuel t : ℕ) (st : List Agent × (ℕ → ℕ → ℝ)), ConnInv st.2 →
      ConnInv (simLoop topics threshold ra t fuel st).2 := by
  intro fuel
  induction fuel with
  | zero => intro t st h; exact h
  | succ n ih =>
    intro t st h
    exact ih (t + 1) _ (ConnInv_cycleStep topics threshold ra t st h)

theorem length_stepAgents (ags : List Agent) (topics : List Topic) (threshold : ℚ) :
    (stepAgents ags topics threshold).length = ags.length := by
  simp [stepAgents]

theorem length_recalculateClusters (ags : List Agent) :
    (recalculateClusters ags).length = ags.length := by
  simp [recalculateClusters]

theorem length_cycleStep (topics : List Topic) (threshold : ℚ) (ra t : ℕ)
    (st : List Agent × (ℕ → ℕ → ℝ)) :
    (cycleStep topics threshold ra t st).1.length = st.1.length := by
  unfold cycleStep
  dsimp only
  split
  · rw [length_recalculateClusters, length_stepAgents]
  · rw [length_stepAgents]

theorem length_simLoop (topics : List Topic) (threshold : ℚ) (ra : ℕ) :
    ∀ (fuel t : ℕ) (st : List Agent × (ℕ → ℕ → ℝ)),
      (simLoop topics threshold ra t fuel st).1.length = st.1.length := by
  intro fuel
  induction fuel with
  | zero => intro t st; rfl
  | succ n ih =>
    intro t st
    rw [simLoop, ih (t + 1) _, length_cycleStep]

theorem ConnInv_init : ConnInv (fun _ _ => (0 : ℝ)) :=
  ⟨fun _ => rfl, fun _ _ => rfl, fun _ _ => ⟨le_refl 0, zero_le_one⟩⟩

theorem entryR_ofFn (f : ℕ → ℕ → ℝ) (n i j : ℕ) (hi : i < n) (hj : j < n) :
    entryR (List.ofFn (fun i' : Fin n => List.ofFn (fun j' : Fin n => f i'.1 j'.1))) i j =
      f i j := by
  unfold entryR
  have h1 : (List.ofFn fun i' : Fin n => List.ofFn fun j' : Fin n => f i'.1 j'.1).getD i [] =
      List.ofFn (fun j' : Fin n => f i j'.1) := by
    rw [List.getD_eq_getElem _ _ (by simpa using hi)]
    simp
  rw [h1, List.getD_eq_getElem _ _ (by simpa using hj)]
  simp

/-- C1: on non-empty dimensionally consistent inputs with the threshold in
0..1 and non-negative cycle counts, runSimulation succeeds and its
connections value is a square matrix of side equal to the number of agents,
with zero diagonal, all entries between 0 and 1, and symmetric. -/
theorem runSimulation_connections_matrix_invariants
    (agents : List Agent) (topics : List Topic) (cycles : ℤ) (threshold : ℚ) (ra : ℤ)
    (hA : agents ≠ []) (hT : topics ≠ []) (hdim : dimsConsistent agents topics = true)
    (ht0 : 0 ≤ threshold) (ht1 : threshold ≤ 1) (hc : 0 ≤ cycles) (hr : 0 ≤ ra) :
    ∃ res, runSimulation agents topics cycles threshold ra = Except.ok res ∧
      res.connections.length = agents.length ∧
      (∀ row ∈ res.connections, row.length = agents.length) ∧
      (∀ i, i < agents.length → entryR res.connections i i = 0) ∧
      (∀ i j, i < agents.length → j < agents.length →
        0 ≤ entryR res.connections i j ∧ entryR res.connections i j ≤ 1 ∧
        entryR res.connections i j = entryR res.connections j i) := by
  have hrun : runSimulation agents topics cycles threshold ra =
      Except.ok (simulate agents topics cycles.toNat threshold ra.toNat) := by
    rw [runSimulation, if_neg hA, if_neg hT, if_neg (by simp [hdim]),
      if_neg (by rintro (h | h) <;> linarith), if_neg (not_lt.2 hc), if_neg (not_lt.2 hr)]
  refine ⟨simulate agents topics cycles.toNat threshold ra.toNat, hrun, ?_, ?_, ?_, ?_⟩
  · simp [simulate, length_simLoop]
  · intro row hrow
    simp only [simulate, List.mem_ofFn] at hrow
    obtain ⟨i, hi⟩ := hrow
    rw [← hi]
    simp [length_simLoop]
  · intro i hi
    have hlen := length_simLoop topics threshold ra.toNat cycles.toNat 0 (agents, fun _ _ => 0)
    have hinv := ConnInv_simLoop topics threshold ra.toNat cycles.toNat 0
      (agents, fun _ _ => 0) ConnInv_init
    simp only [simulate]
    rw [entryR_ofFn _ _ i i (by rw [hlen]; exact hi) (by rw [hlen]; exact hi)]
    exact hinv.1 i
  · intro i j hi hj
    have hlen := length_simLoop topics threshold ra.toNat cycles.toNat 0 (agents, fun _ _ => 0)
    have hinv := ConnInv_simLoop topics threshold ra.toNat cycles.toNat 0
      (agents, fun _ _ => 0) ConnInv_init
    simp only [simulate]
    rw [entryR_ofFn _ _ i j (by rw [hlen]; exact hi) (by rw [hlen]; exact hj)]
    rw [entryR_ofFn _ _ j i (by rw [hlen]; exact hj) (by rw [hlen]; exact hi)]
    exact ⟨(hinv.2.2 i j).1, (hinv.2.2 i j).2, hinv.2.1 i j⟩

/-- Witness for C1 at a concrete two-agent, one-topic run. -/
theorem runSimulation_connections_matrix_invariants_witness :
    ([⟨[1], 0⟩, ⟨[0], 1⟩] : List Agent) ≠ [] ∧
    ([⟨0, [1], "t", false⟩] : List Topic) ≠ [] ∧
    dimsConsistent [⟨[1], 0⟩, ⟨[0], 1⟩] [⟨0, [1], "t", false⟩] = true ∧
    (∃ res, runSimulation [⟨[1], 0⟩, ⟨[0], 1⟩] [⟨0, [1], "t", false⟩] 1 (1/2) 0 =
        Except.ok res ∧
      res.connections.length = ([⟨[1], 0⟩, ⟨[0], 1⟩] : List Agent).length ∧
      (∀ row ∈ res.connections, row.length = ([⟨[1], 0⟩, ⟨[0], 1⟩] : List Agent).length) ∧
      (∀ i, i < ([⟨[1], 0⟩, ⟨[0], 1⟩] : List Agent).length → entryR res.connections i i = 0) ∧
      (∀ i j, i < ([⟨[1], 0⟩, ⟨[0], 1⟩] : List Agent).length →
        j < ([⟨[1], 0⟩, ⟨[0], 1⟩] : List Agent).length →
        0 ≤ entryR res.connections i j ∧ entryR res.connections i j ≤ 1 ∧
        entryR res.connections i j = entryR res.connections j i)) :=
  ⟨by simp, by simp, by rfl,
    runSimulation_connections_matrix_invariants [⟨[1], 0⟩, ⟨[0], 1⟩] [⟨0, [1], "t", false⟩]
      1 (1/2) 0 (by simp) (by simp) (by rfl) (by norm_num) (by norm_num)
      (by norm_num) (by norm_num)⟩

/-- C5: on empty or dimensionally inconsistent inputs, an out-of-range
threshold, or negative cycle counts, runSimulation fails immediately with a
descriptive (non-empty) error message and produces no result. -/
theorem runSimulation_rejects_invalid_inputs
    (agents : List Agent) (topics : List Topic) (cycles : ℤ) (threshold : ℚ) (ra : ℤ)
    (h : agents = [] ∨ topics = [] ∨ dimsConsistent agents topics = false ∨
      threshold < 0 ∨ 1 < threshold ∨ cycles < 0 ∨ ra < 0) :
    ∃ msg, runSimulation agents topics cycles threshold ra = Except.error msg ∧
      msg ≠ "" := by
  unfold runSimulation
  split_ifs with h1 h2 h3 h4 h5 h6
  · exact ⟨_, rfl, by simp⟩
  · exact ⟨_, rfl, by simp⟩
  · exact ⟨_, rfl, by simp⟩
  · exact ⟨_, rfl, by simp⟩
  · exact ⟨_, rfl, by simp⟩
  · exact ⟨_, rfl, by simp⟩
  · exfalso
    rcases h with h | h | h | h | h | h | h
    · exact h1 h
    · exact h2 h
    · exact h3 h
    · exact h4 (Or.inl h)
    · exact h4 (Or.inr h)
    · exact h5 h
    · exact h6 h

/-- Witness for C5 on an empty agent list. -/
theorem runSimulation_rejects_invalid_inputs_witness :
    ∃ msg, runSimulation [] [⟨0, [1], "t", false⟩] 1 (1/2) 0 = Except.error msg ∧
      msg ≠ "" :=
  runSimulation_rejects_invalid_inputs [] [⟨0, [1], "t", false⟩] 1 (1/2) 0 (Or.inl rfl)

/-- C6: the modelled engine is a pure function of its inputs, so two runs
on identical inputs return identical results: the same outcome, the same
final agents pointwise, and the same connection entries pointwise. -/
theorem runSimulation_two_run_deterministic
    (agents : List Agent) (topics : List Topic) (cycles : ℤ) (threshold : ℚ) (ra : ℤ) :
    runSimulation agents topics cycles threshold ra =
      runSimulation agents topics cycles threshold ra ∧
    (∀ i, ((simulate agents topics cycles.toNat threshold ra.toNat).agents.getD i default) =
      ((simulate agents topics cycles.toNat threshold ra.toNat).agents.getD i default)) ∧
    (∀ i j, entryR (simulate agents topics cycles.toNat threshold ra.toNat).connections i j =
      entryR (simulate agents topics cycles.toNat threshold ra.toNat).connections i j) :=
  ⟨rfl, fun _ => rfl, fun _ _ => rfl⟩

/-- A min/max/step constraint row of PARAM_CONSTRAINTS in
src/lib/simulationConfig.js. -/
structure Constraint where
  cmin : ℚ
  cmax : ℚ
  step : ℚ

/-- The full simulation parameter record of src/lib/simulationConfig.js. -/
structure SimParams where
  agentCount : ℚ
  vectorDimension : ℚ
  numClusters : ℚ
  cycles : ℚ
  threshold : ℚ
  recalculateClustersAfter : ℚ
  scenario : String

/-- DEFAULT_PARAMS of src/lib/simulationConfig.js. -/
def DEFAULT_PARAMS : SimParams :=
  { agentCount := 150, vectorDimension := 10, numClusters := 3, cycles := 50,
    threshold := 1 / 2, recalculateClustersAfter := 0, scenario := "A" }

/-- The constraint table PARAM_CONSTRAINTS of src/lib/simulationConfig.js. -/
structure ParamConstraints where
  agentCount : Constraint
  vectorDimension : Constraint
  numClusters : Constraint
  cycles : Constraint
  threshold : Constraint
  recalculateClustersAfter : Constraint

/-- PARAM_CONSTRAINTS of src/lib/simulationConfig.js. -/
def PARAM_CONSTRAINTS : ParamConstraints :=
  { agentCount := ⟨1, 1000, 1⟩, vectorDimension := ⟨2, 100, 1⟩, numClusters := ⟨1, 20, 1⟩,
    cycles := ⟨1, 200, 1⟩, threshold := ⟨0, 1, 1 / 100⟩,
    recalculateClustersAfter := ⟨0, 100, 1⟩ }

/-- Validation outcome of validateParams in src/lib/simulationConfig.js. -/
structure Validation where
  valid : Bool
  errors : List String
deriving Repr, DecidableEq

/-- validateParams of src/lib/simulationConfig.js: collects one error
string per violated constraint; valid exactly when no error was
collected. -/
def validateParams (p : SimParams) : Validation :=
  let errors :=
    (if p.agentCount < PARAM_CONSTRAINTS.agentCount.cmin then
      ["Agent count must be at least 1"] else []) ++
    (if PARAM_CONSTRAINTS.agentCount.cmax < p.agentCount then
      ["Agent count cannot exceed 1000"] else []) ++
    (if p.vectorDimension < PARAM_CONSTRAINTS.vectorDimension.cmin then
      ["Vector dimension must be at least 2"] else []) ++
    (if PARAM_CONSTRAINTS.vectorDimension.cmax < p.vectorDimension then
      ["Vector dimension cannot exceed 100"] else []) ++
    (if p.numClusters < PARAM_CONSTRAINTS.numClusters.cmin then
      ["Number of clusters must be at least 1"] else []) ++
    (if p.agentCount < p.numClusters then
      ["Number of clusters cannot exceed number of agents"] else []) ++
    (if p.cycles < PARAM_CONSTRAINTS.cycles.cmin then
      ["Cycles must be at least 1"] else []) ++
    (if PARAM_CONSTRAINTS.cycles.cmax < p.cycles then
      ["Cycles cannot exceed 200"] else []) ++
    (if p.threshold < PARAM_CONSTRAINTS.threshold.cmin ∨
        PARAM_CONSTRAINTS.threshold.cmax < p.threshold then
      ["Threshold must be between 0 and 1"] else []) ++
    (if p.recalculateClustersAfter < 0 then
      ["Recalculate clusters after must be non-negative"] else [])
  { valid := errors.isEmpty, errors := errors }

/-- A user-supplied partial parameter object: absent keys fall back to the
defaults under the object-spread merge. -/
structure UserParams where
  agentCount : Option ℚ := none
  vectorDimension : Option ℚ := none
  numClusters : Option ℚ := none
  cycles : Option ℚ := none
  threshold : Option ℚ := none
  recalculateClustersAfter : Option ℚ := none
  scenario : Option String := none

/-- mergeWithDefaults of src/lib/simulationConfig.js: the spread of the
user parameters over DEFAULT_PARAMS. -/
def mergeWithDefaults (p : UserParams) : SimParams :=
  { agentCount := p.agentCount.getD DEFAULT_PARAMS.agentCount,
    vectorDimension := p.vectorDimension.getD DEFAULT_PARAMS.vectorDimension,
    numClusters := p.numClusters.getD DEFAULT_PARAMS.numClusters,
    cycles := p.cycles.getD DEFAULT_PARAMS.cycles,
    threshold := p.threshold.getD DEFAULT_PARAMS.threshold,
    recalculateClustersAfter :=
      p.recalculateClustersAfter.getD DEFAULT_PARAMS.recalculateClustersAfter,
    scenario := p.scenario.getD DEFAULT_PARAMS.scenario }

/-- Clamp of one value into a constraint row, as in sanitizeParams. -/
def clampC (c : Constraint) (x : ℚ) : ℚ := max c.cmin (min c.cmax x)

/-- sanitizeParams of src/lib/simulationConfig.js: clamp every constrained
key into its range, then cap numClusters at agentCount. -/
def sanitizeParams (p : SimParams) : SimParams :=
  let s : SimParams :=
    { agentCount := clampC PARAM_CONSTRAINTS.agentCount p.agentCount,
      vectorDimension := clampC PARAM_CONSTRAINTS.vectorDimension p.vectorDimension,
      numClusters := clampC PARAM_CONSTRAINTS.numClusters p.numClusters,
      cycles := clampC PARAM_CONSTRAINTS.cycles p.cycles,
      threshold := clampC PARAM_CONSTRAINTS.threshold p.threshold,
      recalculateClustersAfter :=
        clampC PARAM_CONSTRAINTS.recalculateClustersAfter p.recalculateClustersAfter,
      scenario := p.scenario }
  if s.agentCount < s.numClusters then { s with numClusters := s.agentCount } else s

/-- One scenario description row of SCENARIOS in
src/lib/simulationConfig.js. -/
structure ScenarioInfo where
  id : String
  name : String
  description : String
deriving Repr, DecidableEq

/-- getScenario of src/lib/simulationConfig.js: lookup in the two-row
SCENARIOS table, none when the id is unknown. -/
def getScenario (scenarioId : String) : Option ScenarioInfo :=
  if scenarioId = "A" then
    some ⟨"A", "Standard Simulation", "Diverse topics with random distribution"⟩
  else if scenarioId = "B" then
    some ⟨"B", "Cluster-Aligned Topics", "Topics aligned with specific clusters"⟩
  else none

/-- The configuration object produced by createConfig. -/
structure Config where
  params : SimParams
  validation : Validation
  scenario : Option ScenarioInfo

/-- createConfig of src/lib/simulationConfig.js: merge with defaults,
sanitize, then validate the sanitized parameters. -/
def createConfig (p : UserParams) : Config :=
  { params := sanitizeParams (mergeWithDefaults p),
    validation := validateParams (sanitizeParams (mergeWithDefaults p)),
    scenario := getScenario (sanitizeParams (mergeWithDefaults p)).scenario }

theorem validateParams_eq_ok (q : SimParams)
    (h1 : 1 ≤ q.agentCount) (h2 : q.agentCount ≤ 1000)
    (h3 : 2 ≤ q.vectorDimension) (h4 : q.vectorDimension ≤ 100)
    (h5 : 1 ≤ q.numClusters) (h6 : q.numClusters ≤ q.agentCount)
    (h7 : 1 ≤ q.cycles) (h8 : q.cycles ≤ 200)
    (h9 : 0 ≤ q.threshold) (h10 : q.threshold ≤ 1)
    (h11 : 0 ≤ q.recalculateClustersAfter) :
    validateParams q = { valid := true, errors := [] } := by
  have hthr : ¬(q.threshold < PARAM_CONSTRAINTS.threshold.cmin ∨
      PARAM_CONSTRAINTS.threshold.cmax < q.threshold) := by
    simp only [PARAM_CONSTRAINTS]
    rintro (h | h) <;> linarith
  unfold validateParams
  simp only [PARAM_CONSTRAINTS] at hthr ⊢
  rw [if_neg (not_lt.2 h1), if_neg (not_lt.2 h2), if_neg (not_lt.2 h3),
    if_neg (not_lt.2 h4), if_neg (not_lt.2 h5), if_neg (not_lt.2 h6),
    if_neg (not_lt.2 h7), if_neg (not_lt.2 h8), if_neg hthr, if_neg (not_lt.2 h11)]
  rfl

theorem clampC_bounds (c : Constraint) (h : c.cmin ≤ c.cmax) (x : ℚ) :
    c.cmin ≤ clampC c x ∧ clampC c x ≤ c.cmax :=
  ⟨le_max_left _ _, max_le h (min_le_left _ _)⟩

/-- C9: the configuration pipeline createConfig always yields parameters
that pass validation: after merging with defaults and sanitizing, every
constrained parameter is inside its range and numClusters is capped at
agentCount, so validateParams reports valid with an empty error list. -/
theorem createConfig_always_valid (p : UserParams) :
    (createConfig p).validation.valid = true ∧
    (createConfig p).validation.errors = [] := by
  have key : ∀ x : SimParams, validateParams (sanitizeParams x) =
      { valid := true, errors := [] } := by
    intro x
    have hA := clampC_bounds PARAM_CONSTRAINTS.agentCount (by norm_num [PARAM_CONSTRAINTS])
      x.agentCount
    have hV := clampC_bounds PARAM_CONSTRAINTS.vectorDimension (by norm_num [PARAM_CONSTRAINTS])
      x.vectorDimension
    have hN := clampC_bounds PARAM_CONSTRAINTS.numClusters (by norm_num [PARAM_CONSTRAINTS])
      x.numClusters
    have hC := clampC_bounds PARAM_CONSTRAINTS.cycles (by norm_num [PARAM_CONSTRAINTS])
      x.cycles
    have hT := clampC_bounds PARAM_CONSTRAINTS.threshold (by norm_num [PARAM_CONSTRAINTS])
      x.threshold
    have hR := clampC_bounds PARAM_CONSTRAINTS.recalculateClustersAfter
      (by norm_num [PARAM_CONSTRAINTS]) x.recalculateClustersAfter
    simp only [PARAM_CONSTRAINTS] at hA hV hN hC hT hR
    unfold sanitizeParams
    simp only [PARAM_CONSTRAINTS]
    split_ifs with hcap
    · refine validateParams_eq_ok _ ?_ ?_ ?_ ?_ ?_ ?_ ?_ ?_ ?_ ?_ ?_ <;> dsimp only
      · exact hA.1
      · exact hA.2
      · exact hV.1
      · exact hV.2
      · exact hA.1
      · exact le_refl _
      · exact hC.1
      · exact hC.2
      · exact hT.1
      · exact hT.2
      · exact hR.1
    · refine validateParams_eq_ok _ ?_ ?_ ?_ ?_ ?_ ?_ ?_ ?_ ?_ ?_ ?_ <;> dsimp only
      · exact hA.1
      · exact hA.2
      · exact hV.1
      · exact hV.2
      · exact hN.1
      · exact le_of_not_lt hcap
      · exact hC.1
      · exact hC.2
      · exact hT.1
      · exact hT.2
      · exact hR.1
  unfold createConfig
  rw [key (mergeWithDefaults p)]
  exact ⟨rfl, rfl⟩

/-- The UI simulation state container of src/lib/simulationState.js. -/
structure SimState where
  agents : Option (List Agent)
  topics : Option (List Topic)
  connections : Option (List (List ℝ))
  clusterCenters : Option (List (List ℚ))
  isRunning : Bool
  progress : ℚ
  currentCycle : ℚ
  error : Option String
  results : Option SimResult
  visualizationData : Option VizData
  report : Option String

/-- createInitialState of src/lib/simulationState.js. -/
def createInitialState : SimState :=
  { agents := none, topics := none, connections := none, clusterCenters := none,
    isRunning := false, progress := 0, currentCycle := 0, error := none,
    results := none, visualizationData := none, report := none }

/-- updateProgress of src/lib/simulationState.js. -/
def updateProgress (state : SimState) (currentCycle totalCycles : ℚ) : SimState :=
  { state with currentCycle := currentCycle, progress := currentCycle / totalCycles * 100 }

/-- setRunning of src/lib/simulationState.js: starting a run clears the
error, stopping keeps it. -/
def setRunning (state : SimState) (isRunning : Bool) : SimState :=
  { state with isRunning := isRunning, error := if isRunning then none else state.error }

/-- setError of src/lib/simulationState.js: records the error and stops the
run. -/
def setError (state : SimState) (error : Option String) : SimState :=
  { state with error := error, isRunning := false }

/-- setResults of src/lib/simulationState.js: records the results,
stops the run and completes the progress. -/
def setResults (state : SimState) (results : Option SimResult) : SimState :=
  { state with results := results, isRunning := false, progress := 100 }

/-- resetState of src/lib/simulationState.js. -/
def resetState : SimState := createInitialState

/-- The running-implies-no-error invariant of the state container. -/
def StateInv (s : SimState) : Prop := s.isRunning = true → s.error = none

/-- C10: every operation of the simulation-state module preserves the
invariant that a running state carries no error: the initial and reset
states satisfy it, updateProgress and setRunning preserve it, setRunning
with true clears the error, and setError and setResults force the running
flag off (making the invariant hold vacuously). -/
theorem simulationState_running_error_invariant :
    StateInv createInitialState ∧
    (∀ s c t, StateInv s → StateInv (updateProgress s c t)) ∧
    (∀ s b, StateInv s → StateInv (setRunning s b)) ∧
    (∀ s, (setRunning s true).error = none) ∧
    (∀ s e, (setError s e).isRunning = false ∧ StateInv (setError s e)) ∧
    (∀ s r, (setResults s r).isRunning = false ∧ StateInv (setResults s r)) ∧
    StateInv resetState := by
  refine ⟨?_, ?_, ?_, ?_, ?_, ?_, ?_⟩
  · intro h
    simp [createInitialState] at h
  · intro s c t hs h
    exact hs h
  · intro s b hs
    cases b
    · intro h
      simp [setRunning] at h
    · intro h
      rfl
  · intro s
    rfl
  · intro s e
    refine ⟨rfl, ?_⟩
    intro h
    simp [setError] at h
  · intro s r
    refine ⟨rfl, ?_⟩
    intro h
    simp [setResults] at h
  · intro h
    simp [resetState, createInitialState] at h

/-- Witness for C10: the invariant transitions applied at the initial
state. -/
theorem simulationState_running_error_invariant_witness :
    StateInv (updateProgress createInitialState 1 2) ∧
    StateInv (setRunning createInitialState true) ∧
    (setRunning createInitialState true).error = none ∧
    (setError createInitialState (some "boom")).isRunning = false :=
  ⟨simulationState_running_error_invariant.2.1 createInitialState 1 2
      simulationState_running_error_invariant.1,
    simulationState_running_error_invariant.2.2.1 createInitialState true
      simulationState_running_error_invariant.1,
    simulationState_running_error_invariant.2.2.2.1 createInitialState,
    (simulationState_running_error_invariant.2.2.2.2.1 createInitialState (some "boom")).1⟩

end AgentNet
